import Mathlib

/-!
Verification of the error-customization combinators of the combine parser
library (src/parser/error.rs): the four-outcome result algebra, the
error-accumulation model, and the parsers Unexpected, Message, Expected and
Silent. Items defined in src/parser/error.rs are translated directly; the
surrounding error and result types live outside the visible source and are
modelled from the specification.
-/

namespace Combine

variable {Item Range Input St T : Type} {α : Type}

/-- Modelled from the spec: the Descriptor ("Info") type of §3 — a tagged
value over a single item, a range of items, or owned label text. The Rust
type Info is defined outside the visible source. -/
inductive Info (Item Range : Type) : Type where
  | token : Item → Info Item Range
  | range : Range → Info Item Range
  | owned : String → Info Item Range
deriving DecidableEq

/-- Modelled from the spec: one diagnostic entry of the error capability of
§4.2 — unexpected(descriptor), expected(descriptor) or message(descriptor).
The Rust StreamError constructors are defined outside the visible source. -/
inductive Entry (Item Range : Type) : Type where
  | unexpected : Info Item Range → Entry Item Range
  | expected : Info Item Range → Entry Item Range
  | message : Info Item Range → Entry Item Range
deriving DecidableEq

/-- Whether an entry is an expected-entry. -/
def Entry.isExpected : Entry Item Range → Bool
  | .expected _ => true
  | _ => false

/-- Modelled from the spec: an error is an ordered collection of diagnostic
entries together with the position at which it arose (§3, §7). The Rust
ParseError trait and its concrete carriers are outside the visible source. -/
structure Error (Item Range : Type) : Type where
  position : Nat
  entries : List (Entry Item Range)
deriving DecidableEq

/-- Modelled from the spec: the error-factory of §6, constructing an empty
error at a position. -/
def Error.empty (pos : Nat) : Error Item Range := ⟨pos, []⟩

/-- Modelled from the spec: append one typed entry (§4.2). -/
def Error.add (e : Error Item Range) (en : Entry Item Range) : Error Item Range :=
  { e with entries := e.entries ++ [en] }

/-- Modelled from the spec: append a free-form message entry (§4.2). -/
def Error.add_message (e : Error Item Range) (d : Info Item Range) : Error Item Range :=
  e.add (Entry.message d)

/-- Modelled from the spec: remove all expected entries from an already-built
error, leaving unexpected and message entries (§4.2). -/
def Error.clear_expected (e : Error Item Range) : Error Item Range :=
  { e with entries := e.entries.filter (fun en => !en.isExpected) }

/-- Modelled from the spec: the tracked-error wrapper of §3, pairing an error
with the offset at which it arose. -/
structure Tracked (Item Range : Type) : Type where
  error : Error Item Range
  offset : Nat
deriving DecidableEq

/-- Modelled from the spec: the conversion of a plain error into a tracked
error (the Rust From impl giving a fresh tracking offset). -/
def Tracked.ofError (e : Error Item Range) : Tracked Item Range := ⟨e, 0⟩

/-- Modelled from the spec: the label-override scope of §4.2 — execute the
closure on the tracked error, then discard every expected-entry the closure
added and substitute exactly the new expected entry in their place, leaving
unexpected and message entries added by the closure untouched. The Rust
ParseError method set_expected is outside the visible source. -/
def set_expected (te : Tracked Item Range) (new : Entry Item Range)
    (inner : Tracked Item Range → Tracked Item Range) : Tracked Item Range :=
  let start := te.error.entries.length
  let te2 := inner te
  { te2 with
    error := { te2.error with
      entries :=
        te2.error.entries.take start
          ++ (te2.error.entries.drop start).filter (fun en => !en.isExpected)
          ++ [new] } }

/-- Modelled from the spec: the four-outcome result type of §3. EmptyErr
carries a cheap tracked error, ConsumedErr a plain committed error. -/
inductive ParseResult (T Item Range : Type) : Type where
  | ConsumedOk : T → ParseResult T Item Range
  | EmptyOk : T → ParseResult T Item Range
  | ConsumedErr : Error Item Range → ParseResult T Item Range
  | EmptyErr : Tracked Item Range → ParseResult T Item Range
deriving DecidableEq

/-- Modelled from the spec: map the error of a result, leaving successes and
the Empty/Consumed tag unchanged (the Rust ParseResult method map_err used
by Silent, applying to both error variants per §4.5). -/
def ParseResult.map_err (r : ParseResult T Item Range)
    (f : Error Item Range → Error Item Range) : ParseResult T Item Range :=
  match r with
  | .ConsumedOk x => .ConsumedOk x
  | .EmptyOk x => .EmptyOk x
  | .ConsumedErr e => .ConsumedErr (f e)
  | .EmptyErr te => .EmptyErr ⟨f te.error, te.offset⟩

/-- Whether the result carries the Consumed tag. -/
def ParseResult.consumed : ParseResult T Item Range → Bool
  | .ConsumedOk _ => true
  | .ConsumedErr _ => true
  | _ => false

/-- Whether the result is a success. -/
def ParseResult.isOk : ParseResult T Item Range → Bool
  | .ConsumedOk _ => true
  | .EmptyOk _ => true
  | _ => false

/-- The success value of a result, if any. -/
def ParseResult.value? : ParseResult T Item Range → Option T
  | .ConsumedOk x => some x
  | .EmptyOk x => some x
  | _ => none

/-- The diagnostic entries carried by a failing result (empty for
successes). -/
def ParseResult.errorEntries : ParseResult T Item Range → List (Entry Item Range)
  | .ConsumedErr e => e.entries
  | .EmptyErr te => te.error.entries
  | _ => []

/-- Modelled from the spec: the two-state mode flag of §3. -/
inductive ParseMode : Type where
  | firstAttempt : ParseMode
  | resume : ParseMode
deriving DecidableEq

/-- Modelled from the spec: the parser contract of §4.4 restricted to the
operations the wrapping combinators use — the mode-aware entry point (which
threads the input stream and the parser state) and the two lazy
error-contribution hooks. -/
structure Parser (Input St T Item Range : Type) : Type where
  parseMode : ParseMode → Input → St → ParseResult T Item Range × Input × St
  addError : Tracked Item Range → Tracked Item Range
  addConsumedExpectedError : Tracked Item Range → Tracked Item Range

namespace Unexpected

/-- Translation of Unexpected::parse_lazy (src/parser/error.rs lines 22-24):
return an empty failure carrying an empty error stamped with the input's
current position, leaving the input untouched. The output type is the
phantom parameter of the Rust struct, here an explicit argument. -/
def parse_lazy (T : Type) (d : Info Item Range) (position : Input → Nat)
    (input : Input) : ParseResult T Item Range × Input :=
  (ParseResult.EmptyErr (Tracked.ofError (Error.empty (position input))), input)

/-- Translation of Unexpected::add_error (src/parser/error.rs lines 25-27):
append one unexpected entry built from the stored descriptor. -/
def add_error (d : Info Item Range) (errors : Tracked Item Range) :
    Tracked Item Range :=
  { errors with error := errors.error.add (Entry.unexpected d) }

end Unexpected

namespace Message

/-- Translation of Message::parse_mode_impl (src/parser/error.rs lines
106-128): pass successes through, append the message to a consumed error
immediately, and pass an empty error through unchanged. -/
def parse_mode_impl (p : Parser Input St T Item Range) (msg : Info Item Range)
    (mode : ParseMode) (input : Input) (state : St) :
    ParseResult T Item Range × Input × St :=
  match p.parseMode mode input state with
  | (ParseResult.ConsumedOk x, i, s) => (ParseResult.ConsumedOk x, i, s)
  | (ParseResult.EmptyOk x, i, s) => (ParseResult.EmptyOk x, i, s)
  | (ParseResult.ConsumedErr err, i, s) =>
      (ParseResult.ConsumedErr (err.add_message msg), i, s)
  | (ParseResult.EmptyErr err, i, s) => (ParseResult.EmptyErr err, i, s)

/-- Translation of Message::add_error (src/parser/error.rs lines 130-133):
first forward to the inner parser's hook, then append the message. -/
def add_error (p : Parser Input St T Item Range) (msg : Info Item Range)
    (errors : Tracked Item Range) : Tracked Item Range :=
  let e2 := p.addError errors
  { e2 with error := e2.error.add_message msg }

/-- Translation of the forward declaration on src/parser/error.rs line 135:
forward add_consumed_expected_error unchanged to the inner parser. -/
def add_consumed_expected_error (p : Parser Input St T Item Range)
    (msg : Info Item Range) (errors : Tracked Item Range) : Tracked Item Range :=
  p.addConsumedExpectedError errors

end Message

namespace Expected

/-- Translation of Expected::parse_mode_impl (src/parser/error.rs lines
164-174): pure passthrough of the inner parser's result. -/
def parse_mode_impl (p : Parser Input St T Item Range) (info : Info Item Range)
    (mode : ParseMode) (input : Input) (state : St) :
    ParseResult T Item Range × Input × St :=
  p.parseMode mode input state

/-- Translation of Expected::add_error (src/parser/error.rs lines 176-184):
run the inner parser's hook inside a label-override scope carrying one
expected entry built from the stored label. -/
def add_error (p : Parser Input St T Item Range) (info : Info Item Range)
    (errors : Tracked Item Range) : Tracked Item Range :=
  set_expected errors (Entry.expected info) (fun errors => p.addError errors)

/-- Translation of the forward declaration on src/parser/error.rs line 186:
forward add_consumed_expected_error unchanged to the inner parser. -/
def add_consumed_expected_error (p : Parser Input St T Item Range)
    (info : Info Item Range) (errors : Tracked Item Range) : Tracked Item Range :=
  p.addConsumedExpectedError errors

end Expected

namespace Silent

/-- Translation of Silent::parse_mode_impl (src/parser/error.rs lines
214-227): run the inner parser and strip the expected entries from either
error variant. -/
def parse_mode_impl (p : Parser Input St T Item Range) (mode : ParseMode)
    (input : Input) (state : St) : ParseResult T Item Range × Input × St :=
  let r := p.parseMode mode input state
  (r.1.map_err (fun err => err.clear_expected), r.2)

/-- Translation of Silent::add_error (src/parser/error.rs line 229): a no-op
that does not forward to the inner parser. -/
def add_error (p : Parser Input St T Item Range) (errors : Tracked Item Range) :
    Tracked Item Range :=
  errors

/-- Translation of Silent::add_consumed_expected_error (src/parser/error.rs
lines 231-232): a no-op that does not forward to the inner parser. -/
def add_consumed_expected_error (p : Parser Input St T Item Range)
    (errors : Tracked Item Range) : Tracked Item Range :=
  errors

end Silent

/-- A parser whose hook appends a fixed list of entries; used to instantiate
universally quantified theorems at a concrete inner parser. -/
def appendingP (tail : List (Entry String String)) : Parser Nat Unit Unit String String where
  parseMode := fun _ i _ => (ParseResult.EmptyErr (Tracked.ofError (Error.empty i)), i, ())
  addError := fun te =>
    { te with error := { te.error with entries := te.error.entries ++ tail } }
  addConsumedExpectedError := fun te => te

/-- A sample mixed tail of entries: two expected entries interleaved with an
unexpected entry and a message entry. -/
def noisyTail : List (Entry String String) :=
  [Entry.expected (Info.owned "digit"), Entry.unexpected (Info.owned "sym"),
   Entry.expected (Info.owned "letter"), Entry.message (Info.owned "note")]

/-- A parser that consumes one item and fails with a committed error already
holding an unexpected entry, an expected entry and a message entry. -/
def leakyP : Parser Nat Unit Unit String String where
  parseMode := fun _ i _ =>
    (ParseResult.ConsumedErr
      ⟨i + 1, [Entry.unexpected (Info.owned "u"), Entry.expected (Info.owned "e"),
               Entry.message (Info.owned "m")]⟩, i + 1, ())
  addError := fun te => te
  addConsumedExpectedError := fun te => te

theorem take_len_append (l₁ l₂ : List α) : (l₁ ++ l₂).take l₁.length = l₁ := by
  induction l₁ with
  | nil => rfl
  | cons a t ih => simp [ih]

theorem drop_len_append (l₁ l₂ : List α) : (l₁ ++ l₂).drop l₁.length = l₂ := by
  induction l₁ with
  | nil => rfl
  | cons a t ih => simp [ih]

theorem filter_exp_of_filter_not (l : List (Entry Item Range)) :
    (l.filter (fun en => !en.isExpected)).filter Entry.isExpected = [] := by
  induction l with
  | nil => rfl
  | cons a t ih => cases a <;> simp [Entry.isExpected, ih]

theorem filter_not_exp_idem (l : List (Entry Item Range)) :
    (l.filter (fun en => !en.isExpected)).filter (fun en => !en.isExpected)
      = l.filter (fun en => !en.isExpected) := by
  induction l with
  | nil => rfl
  | cons a t ih => cases a <;> simp [Entry.isExpected, ih]

/-- Claim C1: when Expected(P, D)'s add_error hook is invoked on a tracked
error holding no expected entries, and P's own hook appends the tail tl, the
resulting expected-entries are exactly the singleton expected(D) — every
expected entry P appended is discarded and replaced by D — while the
unexpected and message entries P appended are left untouched. -/
theorem expected_label_override (p : Parser Input St T Item Range)
    (d : Info Item Range) (te : Tracked Item Range) (tl : List (Entry Item Range))
    (hadd : (p.addError te).error.entries = te.error.entries ++ tl)
    (hclean : te.error.entries.filter Entry.isExpected = []) :
    (Expected.add_error p d te).error.entries.filter Entry.isExpected
        = [Entry.expected d]
    ∧ (Expected.add_error p d te).error.entries.filter (fun en => !en.isExpected)
        = te.error.entries.filter (fun en => !en.isExpected)
          ++ tl.filter (fun en => !en.isExpected) := by
  unfold Expected.add_error set_expected
  constructor
  · simp [hadd, take_len_append, drop_len_append, List.filter_append, hclean,
      filter_exp_of_filter_not, Entry.isExpected]
  · simp [hadd, take_len_append, drop_len_append, List.filter_append,
      filter_not_exp_idem, Entry.isExpected]

/-- Witness for claim C1: the label-override law evaluated at a concrete
inner parser whose hook appends a mixed tail of entries. -/
theorem expected_label_override_witness :
    (Expected.add_error (appendingP noisyTail) (Info.owned "ident")
        (Tracked.ofError (Error.empty 0))).error.entries.filter Entry.isExpected
        = [Entry.expected (Info.owned "ident")]
    ∧ (Expected.add_error (appendingP noisyTail) (Info.owned "ident")
        (Tracked.ofError (Error.empty 0))).error.entries.filter
          (fun en => !en.isExpected)
        = (Tracked.ofError (Error.empty 0)).error.entries.filter
            (fun en => !en.isExpected)
          ++ noisyTail.filter (fun en => !en.isExpected) :=
  expected_label_override (appendingP noisyTail) (Info.owned "ident")
    (Tracked.ofError (Error.empty 0)) noisyTail rfl rfl

/-- Claim C2 counterexample: Silent run over a parser that fails after
consuming, with an unexpected entry and a message entry in its committed
error, keeps those two entries — full suppression of unexpected and message
entries does not happen. -/
theorem silent_counterexample :
    (Silent.parse_mode_impl leakyP ParseMode.firstAttempt 0 ()).1.errorEntries
        = [Entry.unexpected (Info.owned "u"), Entry.message (Info.owned "m")]
    ∧ (Silent.parse_mode_impl leakyP ParseMode.firstAttempt 0 ()).1.errorEntries
        ≠ [] := by
  constructor <;> decide

/-- Claim C2 as amended: a failure surfaced from Silent(P) carries zero
expected entries; the unexpected and message entries of P's failure are kept
unchanged (only expected entries are stripped); and Silent's two
error-contribution hooks leave any tracked error untouched. -/
theorem silent_spec (p : Parser Input St T Item Range) (mode : ParseMode)
    (input : Input) (state : St) (te : Tracked Item Range) :
    (Silent.parse_mode_impl p mode input state).1.errorEntries.filter
        Entry.isExpected = []
    ∧ (Silent.parse_mode_impl p mode input state).1.errorEntries
        = (p.parseMode mode input state).1.errorEntries.filter
            (fun en => !en.isExpected)
    ∧ Silent.add_error p te = te
    ∧ Silent.add_consumed_expected_error p te = te := by
  refine ⟨?_, ?_, rfl, rfl⟩ <;>
  · rcases hp : p.parseMode mode input state with ⟨r, i, s⟩
    cases r <;>
      simp [Silent.parse_mode_impl, hp, ParseResult.map_err,
        ParseResult.errorEntries, Error.clear_expected, filter_exp_of_filter_not]

/-- Claim C3: Unexpected(D)'s parse_lazy, run on any input, returns the
EmptyErr variant carrying an empty tracked error stamped with the input's
current position; it is never Ok, never ConsumedErr, and the input is
returned with its position unchanged. -/
theorem unexpected_parse_lazy_spec (d : Info Item Range)
    (position : Input → Nat) (input : Input) :
    Unexpected.parse_lazy T d position input
        = (ParseResult.EmptyErr (Tracked.ofError (Error.empty (position input))),
           input)
    ∧ (Unexpected.parse_lazy T d position input).1.isOk = false
    ∧ (Unexpected.parse_lazy T d position input).1.consumed = false
    ∧ (Unexpected.parse_lazy T d position input).2 = input :=
  ⟨rfl, rfl, rfl, rfl⟩

/-- Claim C4: Unexpected(D)'s add_error appends exactly one unexpected entry
built from the stored descriptor to the supplied tracked error, changing
nothing else, while parse_lazy's placeholder result carries no entry at all
— the descriptor is materialized only in add_error. -/
theorem unexpected_add_error_spec (d : Info Item Range) (te : Tracked Item Range)
    (position : Input → Nat) (input : Input) :
    (Unexpected.add_error d te).error.entries
        = te.error.entries ++ [Entry.unexpected d]
    ∧ (Unexpected.add_error d te).error.position = te.error.position
    ∧ (Unexpected.add_error d te).offset = te.offset
    ∧ (Unexpected.parse_lazy T d position input).1.errorEntries = [] :=
  ⟨rfl, rfl, rfl, rfl⟩

/-- Claim C5: Expected(P, D)'s mode-aware entry point returns exactly the
result P returns on the same mode, input and state — identical variant,
value, tag, error content, and stream and state effects. -/
theorem expected_parse_mode_passthrough (p : Parser Input St T Item Range)
    (info : Info Item Range) (mode : ParseMode) (input : Input) (state : St) :
    Expected.parse_mode_impl p info mode input state
      = p.parseMode mode input state :=
  rfl

/-- Claim C6: Message(P, D) matches the same values as P, leaves the stream
and state exactly where P left them, and never changes the success/failure
outcome or the Empty/Consumed tag; in particular EmptyOk and ConsumedOk
results of P are returned unchanged. -/
theorem message_preserves_outcome (p : Parser Input St T Item Range)
    (msg : Info Item Range) (mode : ParseMode) (input : Input) (state : St) :
    (Message.parse_mode_impl p msg mode input state).2
        = (p.parseMode mode input state).2
    ∧ (Message.parse_mode_impl p msg mode input state).1.consumed
        = (p.parseMode mode input state).1.consumed
    ∧ (Message.parse_mode_impl p msg mode input state).1.isOk
        = (p.parseMode mode input state).1.isOk
    ∧ (Message.parse_mode_impl p msg mode input state).1.value?
        = (p.parseMode mode input state).1.value? := by
  rcases hp : p.parseMode mode input state with ⟨r, i, s⟩
  cases r <;>
    simp [Message.parse_mode_impl, hp, ParseResult.consumed, ParseResult.isOk,
      ParseResult.value?]

/-- Claim C7: when P returns ConsumedErr, Message(P, D) appends the message
to the error before returning it; when P returns EmptyErr, the tracked error
passes through unchanged at match time, and the message is appended only
inside add_error, after the inner parser's contribution. -/
theorem message_error_paths (p : Parser Input St T Item Range)
    (msg : Info Item Range) (mode : ParseMode) (input : Input) (state : St) :
    (∀ e i s, p.parseMode mode input state = (ParseResult.ConsumedErr e, i, s) →
        Message.parse_mode_impl p msg mode input state
          = (ParseResult.ConsumedErr (e.add_message msg), i, s))
    ∧ (∀ te i s, p.parseMode mode input state = (ParseResult.EmptyErr te, i, s) →
        Message.parse_mode_impl p msg mode input state
          = (ParseResult.EmptyErr te, i, s))
    ∧ (∀ te, (Message.add_error p msg te).error.entries
        = (p.addError te).error.entries ++ [Entry.message msg]) := by
  refine ⟨?_, ?_, fun te => rfl⟩ <;>
  · intro e i s h
    simp [Message.parse_mode_impl, h]

/-- Witness for claim C7: a parser that consumes one item and fails already
carries the message in the returned committed error, with no add_error call. -/
theorem message_error_paths_witness :
    Message.parse_mode_impl leakyP (Info.owned "bad literal")
        ParseMode.firstAttempt 0 ()
      = (ParseResult.ConsumedErr
          ⟨1, [Entry.unexpected (Info.owned "u"), Entry.expected (Info.owned "e"),
               Entry.message (Info.owned "m"),
               Entry.message (Info.owned "bad literal")]⟩, 1, ()) :=
  (message_error_paths leakyP (Info.owned "bad literal")
      ParseMode.firstAttempt 0 ()).1 _ 1 () rfl

/-- Claim C8: Silent's add_error and add_consumed_expected_error leave the
tracked error completely unchanged and do not forward to the inner parser,
whatever that inner parser's own hooks would do. -/
theorem silent_hooks_noop (p : Parser Input St T Item Range)
    (te : Tracked Item Range) :
    Silent.add_error p te = te ∧ Silent.add_consumed_expected_error p te = te :=
  ⟨rfl, rfl⟩

/-- Claim C9: Message(P, D) and Expected(P, D) forward the
add_consumed_expected_error hook unchanged to the inner parser — invoking it
on the wrapper has exactly the effect of P's own hook. -/
theorem forward_consumed_expected_hook (p : Parser Input St T Item Range)
    (d : Info Item Range) (te : Tracked Item Range) :
    Message.add_consumed_expected_error p d te = p.addConsumedExpectedError te
    ∧ Expected.add_consumed_expected_error p d te
        = p.addConsumedExpectedError te :=
  ⟨rfl, rfl⟩

/-- Claim C10: Message(P, D)'s add_error first runs P's own add_error and
only afterwards appends the message entry, so when P's hook appends the tail
tl, the message ends up after every entry P contributed. -/
theorem message_add_error_order (p : Parser Input St T Item Range)
    (msg : Info Item Range) (te : Tracked Item Range)
    (tl : List (Entry Item Range))
    (hadd : (p.addError te).error.entries = te.error.entries ++ tl) :
    (Message.add_error p msg te).error.entries
      = te.error.entries ++ tl ++ [Entry.message msg] := by
  simp [Message.add_error, Error.add_message, Error.add, hadd]

/-- Witness for claim C10: the ordering law evaluated at a concrete inner
parser whose hook appends a mixed tail of entries. -/
theorem message_add_error_order_witness :
    (Message.add_error (appendingP noisyTail) (Info.owned "ctx")
        (Tracked.ofError (Error.empty 0))).error.entries
      = (Tracked.ofError (Error.empty 0)).error.entries ++ noisyTail
        ++ [Entry.message (Info.owned "ctx")] :=
  message_add_error_order (appendingP noisyTail) (Info.owned "ctx")
    (Tracked.ofError (Error.empty 0)) noisyTail rfl

end Combine
